import Mathlib

/-!
Shallow embedding of the Weather-Dashboard ingestion pipeline
(`weather_pipeline.py`) in Lean 4.

Conventions of the embedding:
* Numeric JSON/environment values (temperatures, thresholds, coordinates)
  are modelled as rationals `ℚ`; every comparison the code performs on them
  is an order comparison, which `ℚ` models faithfully.
* Python exceptions are modelled with `Except`: an operation that can raise
  returns `Except PyError α`; a `try/except` block is a `match` on that
  value with the handled constructors mapped to the handler's result.
* Ambient effects (HTTP requests, file I/O, SMTP) are modelled as oracle
  parameters describing the outcome the outside world would produce; the
  functions under verification are translated line by line from the source
  around those oracles.
-/

/-- Python exception kinds that appear in `weather_pipeline.py` error paths. -/
inductive PyError where
  | valueError
  | typeError
  | indexError
  | attributeError
  | ioError
  deriving DecidableEq, Repr

/-- Failure modes of one per-location HTTP fetch: timeout, non-2xx status
raised by `raise_for_status`, or a payload missing an expected field
(`KeyError`/JSON decode error). All are caught by the same `except` clause. -/
inductive FetchError where
  | timeout
  | httpError
  | malformedPayload
  deriving DecidableEq, Repr

/-- An SMTP transport failure inside `send_email_alert`'s `try` block. -/
inductive SmtpError where
  | transportFailure
  deriving DecidableEq, Repr

/-- The fields `fetch_weather_data` reads from a successful API response
(`data["dt"]`, `data["main"]["temp"]`, etc., lines 65-73). -/
structure ApiData where
  dt : ℕ
  temp : ℚ
  humidity : ℚ
  wind_speed : ℚ
  weather_main : String
  pressure : ℚ
  feels_like : ℚ
  lat : ℚ
  lon : ℚ
  deriving DecidableEq, Repr

/-- One record appended by `fetch_weather_data` (lines 63-74): a Reading. The
timestamp is kept as the provider's epoch second `dt`; `strftime` formatting
is presentation only. -/
structure Reading where
  city : String
  timestamp : ℕ
  temperature : ℚ
  humidity : ℚ
  wind_speed : ℚ
  weather_condition : String
  pressure : ℚ
  feels_like : ℚ
  latitude : ℚ
  longitude : ℚ
  deriving DecidableEq, Repr

/-- Mapping of a successful response into a Reading (lines 63-74). -/
def mkReading (city : String) (d : ApiData) : Reading :=
  { city := city
    timestamp := d.dt
    temperature := d.temp
    humidity := d.humidity
    wind_speed := d.wind_speed
    weather_condition := d.weather_main
    pressure := d.pressure
    feels_like := d.feels_like
    latitude := d.lat
    longitude := d.lon }

/-- The module constant `CITIES` (line 18). -/
def CITIES : List String :=
  ["London", "New York", "Tokyo", "Sydney", "Cairo",
   "Tunis", "Sousse", "Medenine", "Moscow", "Beijing"]

/-- Digit run to a natural number, e.g. `['3','6'] ↦ 36`. -/
def digitsToNat (l : List Char) : ℕ :=
  l.foldl (fun a c => 10 * a + (c.toNat - 48)) 0

/-- Helper for `pyFloat`: parse an unsigned decimal literal `d+`, `d+.d*` or
`.d+` (at least one digit overall). -/
def pyFloatUnsigned (l : List Char) : Option ℚ :=
  let intPart := l.takeWhile Char.isDigit
  match l.dropWhile Char.isDigit with
  | [] => if intPart.isEmpty then none else some (digitsToNat intPart)
  | '.' :: frac =>
      if frac.all Char.isDigit && (!intPart.isEmpty || !frac.isEmpty) then
        some ((digitsToNat intPart : ℚ) + (digitsToNat frac : ℚ) / 10 ^ frac.length)
      else none
  | _ => none

/-- Model of Python's `str.strip()` with no argument: remove leading and
trailing whitespace (over the string's character list). -/
def pyStrip (l : List Char) : List Char :=
  ((l.dropWhile Char.isWhitespace).reverse.dropWhile Char.isWhitespace).reverse

/-- Model of Python's builtin `float(str)` restricted to plain decimal
literals with an optional sign and surrounding whitespace (no exponent,
`inf` or `nan`, which the repository never feeds it). `none` models a
raised `ValueError`. -/
def pyFloat (s : List Char) : Option ℚ :=
  match pyStrip s with
  | '+' :: rest => pyFloatUnsigned rest
  | '-' :: rest => (pyFloatUnsigned rest).map Neg.neg
  | l => pyFloatUnsigned l

/-- Model of Python's builtin `int(str)`: optional sign, digits, surrounding
whitespace; `none` models a raised `ValueError`. -/
def pyInt (s : List Char) : Option ℤ :=
  let core : List Char → Option ℤ := fun l =>
    if l.isEmpty || !l.all Char.isDigit then none else some (digitsToNat l)
  match pyStrip s with
  | '+' :: rest => core rest
  | '-' :: rest => (core rest).map Neg.neg
  | l => core l

/-- Model of Python's `str.split()` with no argument: split on runs of
whitespace, discarding empty pieces (so `"".split() = []`). -/
def pySplitWhitespace (l : List Char) : List (List Char) :=
  (l.splitOnP Char.isWhitespace).filter (fun t => !t.isEmpty)

/-- Embedding of `parse_float(value, default)` (lines 29-34). `value` is the
result of `os.getenv`, so `none` models an unset variable. The `try` block
computes `float(value.strip().split()[0])` and the `except` clause catches
exactly `(ValueError, TypeError)`. Two raises escape it: with `value = None`,
`None.strip()` raises `AttributeError` (not `TypeError`), which is NOT
caught and propagates; and when the stripped string splits to an empty
list, `[0]` raises `IndexError`, also NOT caught. Only the `ValueError`
from `float` on a bad token is actually caught and mapped to the default. -/
def parse_float (value : Option String) (default : ℚ) : Except PyError ℚ :=
  match value with
  | none => .error .attributeError
  | some s =>
      match pySplitWhitespace (pyStrip s.toList) with
      | [] => .error .indexError
      | t :: _ =>
          match pyFloat t with
          | none => .ok default
          | some q => .ok q

/-- The environment variables the pipeline reads (each `none` = unset). -/
structure EnvVars where
  SMTP_SERVER : Option String := none
  SMTP_PORT : Option String := none
  ALERT_EMAIL_SENDER : Option String := none
  ALERT_EMAIL_PASSWORD : Option String := none
  ALERT_EMAIL_RECIPIENT : Option String := none
  HEAT_WAVE_THRESHOLD : Option String := none
  COLD_WAVE_THRESHOLD : Option String := none
  ENABLE_ALERTS : Option String := none
  deriving DecidableEq, Repr

/-- The settings dictionary produced by `reload_env` (lines 42-50). -/
structure Settings where
  SMTP_SERVER : String
  SMTP_PORT : ℤ
  EMAIL_SENDER : Option String
  EMAIL_PASSWORD : Option String
  EMAIL_RECIPIENT : Option String
  HEAT_THRESHOLD : ℚ
  COLD_THRESHOLD : ℚ
  deriving DecidableEq, Repr

/-- Embedding of `reload_env()` (lines 39-50). `int(os.getenv("SMTP_PORT", 587))`
raises `ValueError` on a non-numeric port; `parse_float` may raise
`AttributeError` (unset variable) or `IndexError` (empty value) — see
`parse_float`. Evaluation order follows the dict literal. -/
def reload_env (e : EnvVars) : Except PyError Settings := do
  let port ←
    match e.SMTP_PORT with
    | none => pure (587 : ℤ)
    | some s =>
        match pyInt s.toList with
        | none => Except.error PyError.valueError
        | some p => pure p
  let heat ← parse_float e.HEAT_WAVE_THRESHOLD 35
  let cold ← parse_float e.COLD_WAVE_THRESHOLD 0
  pure
    { SMTP_SERVER := e.SMTP_SERVER.getD "smtp.gmail.com"
      SMTP_PORT := port
      EMAIL_SENDER := e.ALERT_EMAIL_SENDER
      EMAIL_PASSWORD := e.ALERT_EMAIL_PASSWORD
      EMAIL_RECIPIENT := e.ALERT_EMAIL_RECIPIENT
      HEAT_THRESHOLD := heat
      COLD_THRESHOLD := cold }

/-- Model of Python's `str.lower()` (over the character list). -/
def pyLower (l : List Char) : List Char := l.map Char.toLower

/-- The guard `os.getenv("ENABLE_ALERTS", "false").lower() == "true"`
(lines 156 and 209). -/
def alertsEnabled (e : EnvVars) : Bool :=
  pyLower (e.ENABLE_ALERTS.getD "false").toList == "true".toList

/-- Python truthiness test `not x` for an optional string: `None` and the
empty string are falsy (line 120). -/
def pyFalsy : Option String → Bool
  | none => true
  | some s => s.toList.isEmpty

/-- Embedding of `fetch_weather_data()` (lines 52-79), parametrised by the
outcome `api c` of the single HTTP request issued for city `c` within this
cycle. On success the record is appended; on any exception the `except`
clause logs and the loop continues with the next city. -/
def fetch_weather_data (api : String → Except FetchError ApiData) :
    List String → List Reading
  | [] => []
  | c :: rest =>
      match api c with
      | .ok d => mkReading c d :: fetch_weather_data api rest
      | .error _ => fetch_weather_data api rest

/-- Observable event trace of `fetch_weather_data`: each loop iteration
issues one API call (line 59); `time.sleep(1)` (line 76) runs inside the
`try` block only after a successful fetch, so a failing iteration falls to
the `except` clause without sleeping. -/
inductive FetchEvent where
  | call (city : String)
  | sleep
  deriving DecidableEq, Repr

/-- Event trace of the fetch loop (lines 55-78). -/
def fetch_trace (api : String → Except FetchError ApiData) :
    List String → List FetchEvent
  | [] => []
  | c :: rest =>
      match api c with
      | .ok _ => .call c :: .sleep :: fetch_trace api rest
      | .error _ => .call c :: fetch_trace api rest

/-- Checks `FetchEvent.call` without naming the constructor in a proof. -/
def FetchEvent.isCall : FetchEvent → Bool
  | .call _ => true
  | .sleep => false

/-- A delay separates every two consecutive API calls exactly when no two
`call` events are adjacent in the trace. -/
def noAdjacentCalls : List FetchEvent → Bool
  | a :: b :: t => !(a.isCall && b.isCall) && noAdjacentCalls (b :: t)
  | _ => true

/-- A training record row `[row['city'], row['timestamp'], row['temperature']]`
(line 92). -/
structure TrainingRecord where
  city : String
  timestamp : ℕ
  temperature : ℚ
  deriving DecidableEq, Repr

/-- Embedding of `save_training_data(df)` (lines 81-96). The file I/O of the
`with open(...)` block is modelled by the oracle `io`; when it raises, the
`except` clause catches every exception and the function returns `False`
(rows actually flushed before the failure are not observable here and are
reported as `[]`). On success it returns `True` with one row per Reading in
batch order. -/
def save_training_data (io : Except PyError Unit) (df : List Reading) :
    Bool × List TrainingRecord :=
  match io with
  | .error _ => (false, [])
  | .ok _ => (true, df.map fun r => ⟨r.city, r.timestamp, r.temperature⟩)

/-- Data content of the historical-append step of `save_data(df)`
(lines 107-114): read the existing dataset if present, concatenate the new
batch after it (`pd.concat([historical_df, df])` keeps row order), write
back; with no existing dataset the batch itself is written. `hist = none`
models `os.path.exists(historical_path)` being false. -/
def save_data_historical (hist : Option (List Reading)) (df : List Reading) :
    List Reading :=
  match hist with
  | some historical_df => historical_df ++ df
  | none => df

/-- Alert kinds produced by `check_alerts` (lines 168 and 177). -/
inductive AlertKind where
  | heat
  | cold
  deriving DecidableEq, Repr

/-- An alert event: its kind and the affected cities in batch order
(`heat_wave['city'].tolist()` / `cold_wave['city'].tolist()`); the message
string is presentation derived from these. -/
structure AlertEvent where
  kind : AlertKind
  cities : List String
  deriving DecidableEq, Repr

/-- Delivery outcome of one `send_email_alert` invocation. -/
inductive NotifyOutcome where
  | notConfigured
  | sent
  | failedCaught
  deriving DecidableEq, Repr

/-- Embedding of `send_email_alert(settings, subject, body)` (lines 118-152),
with the SMTP session outcome supplied by `transport`. Returns the delivery
outcome together with the number of network connections attempted. When
sender, password or recipient is Python-falsy the function prints
"Email alerts not configured. Skipping." and returns with no connection;
otherwise any exception from the SMTP block is caught by the `except`
clause and logged, never re-raised. -/
def send_email_alert (settings : Settings) (transport : Except SmtpError Unit) :
    NotifyOutcome × ℕ :=
  if pyFalsy settings.EMAIL_SENDER || pyFalsy settings.EMAIL_PASSWORD ||
      pyFalsy settings.EMAIL_RECIPIENT then
    (.notConfigured, 0)
  else
    match transport with
    | .ok _ => (.sent, 1)
    | .error _ => (.failedCaught, 1)

/-- Pure partition step of `check_alerts` (lines 161-179): rows with
temperature strictly above the heat threshold form at most one heat event,
rows strictly below the cold threshold at most one cold event, heat first. -/
def alertsFor (settings : Settings) (weather_df : List Reading) :
    List AlertEvent :=
  let heat_wave := weather_df.filter fun r => r.temperature > settings.HEAT_THRESHOLD
  let cold_wave := weather_df.filter fun r => r.temperature < settings.COLD_THRESHOLD
  (if !heat_wave.isEmpty then
      [{ kind := .heat, cities := heat_wave.map Reading.city }]
    else []) ++
  (if !cold_wave.isEmpty then
      [{ kind := .cold, cities := cold_wave.map Reading.city }]
    else [])

/-- Embedding of `check_alerts(weather_df)` (lines 154-190). Returns the
alert events produced, the delivery outcome of each `send_email_alert` call
(the `smtp` oracle gives the transport outcome of the i-th send), and the
function's boolean return value. When alerting is disabled it returns
`False` with no events; `reload_env()` may raise (uncaught here). -/
def check_alerts (e : EnvVars) (smtp : ℕ → Except SmtpError Unit)
    (weather_df : List Reading) :
    Except PyError (List AlertEvent × List NotifyOutcome × Bool) :=
  if !alertsEnabled e then
    .ok ([], [], false)
  else
    match reload_env e with
    | .error err => .error err
    | .ok settings =>
        let alerts := alertsFor settings weather_df
        let outcomes :=
          (List.range alerts.length).map fun i =>
            (send_email_alert settings (smtp i)).1
        .ok (alerts, outcomes, decide (alerts.length > 0))

/-- Pipeline steps observable in `run_pipeline` (lines 192-219). -/
inductive Step where
  | fetch
  | persist
  | training
  | alerts
  deriving DecidableEq, Repr

/-- Cycle outcome, distinguished by `run_pipeline`'s control flow and its
log line: `Pipeline completed` / `No data retrieved` / `Pipeline failed`. -/
inductive Outcome where
  | completed
  | noData
  | failed
  deriving DecidableEq, Repr

/-- One cycle's environment: the oracles for every ambient effect
`run_pipeline` performs. -/
structure PipelineEnv where
  api : String → Except FetchError ApiData
  persistIO : Except PyError Unit
  trainingIO : Except PyError Unit
  env : EnvVars
  smtp : ℕ → Except SmtpError Unit

/-- Embedding of the `try` block of `run_pipeline` (lines 197-216): the body
that can raise. An `.error` value is an exception reaching the outer
`except` clause, paired with the steps already executed; `.ok` carries the
return value and the executed steps. `save_data` raising is the
`persistIO` oracle; `save_training_data` never raises (it catches its own
I/O errors); `check_alerts` raises only out of `reload_env`. -/
def run_pipeline_try (P : PipelineEnv) :
    Except (PyError × List Step) (Bool × List Step) :=
  let weather_df := fetch_weather_data P.api CITIES
  if !weather_df.isEmpty then
    match P.persistIO with
    | .error e => .error (e, [.fetch, .persist])
    | .ok _ =>
        let _trainingOk := (save_training_data P.trainingIO weather_df).1
        if alertsEnabled P.env then
          match check_alerts P.env P.smtp weather_df with
          | .error e => .error (e, [.fetch, .persist, .training, .alerts])
          | .ok _ => .ok (true, [.fetch, .persist, .training, .alerts])
        else
          .ok (true, [.fetch, .persist, .training])
  else
    .ok (false, [.fetch])

/-- Result of one full cycle. -/
structure RunResult where
  outcome : Outcome
  returned : Bool
  steps : List Step
  deriving DecidableEq, Repr

/-- Embedding of `run_pipeline()` (lines 192-219): the body wrapped by the
outer `except Exception` clause, which logs `Pipeline failed` and returns
`False`. A `True` return is a completed cycle; a `False` return from the
`else` branch is the `No data retrieved` path. -/
def run_pipeline (P : PipelineEnv) : RunResult :=
  match run_pipeline_try P with
  | .ok (true, steps) => ⟨.completed, true, steps⟩
  | .ok (false, steps) => ⟨.noData, false, steps⟩
  | .error (_, steps) => ⟨.failed, false, steps⟩

/-- Scheduler phase, following spec §4.6 state machine vocabulary. -/
inductive Phase where
  | Idle
  | Running
  | Success
  | Failed
  deriving DecidableEq, Repr

/-- Phase sequence of one scheduled cycle: the scheduler enters `Running`,
the cycle resolves to `Success` or `Failed` by its boolean result, and the
loop returns to `Idle` to await the next tick (`main`, lines 221-232:
`schedule.run_pending()` inside `while True`). -/
def cyclePhases (P : PipelineEnv) : List Phase :=
  [Phase.Running, if (run_pipeline P).returned then Phase.Success else Phase.Failed,
   Phase.Idle]

/-- The first `n` scheduled cycles of `main` (lines 221-232): tick `i` runs
`run_pipeline` on that hour's environment; the loop never exits and ignores
the cycle's return value, so every tick executes. -/
def mainCycles (envs : ℕ → PipelineEnv) (n : ℕ) : List RunResult :=
  (List.range n).map fun i => run_pipeline (envs i)

/-! Shared concrete data for witnesses. -/

/-- A sample successful API payload used by concrete witnesses. -/
def sampleApiData : ApiData :=
  { dt := 1700000000, temp := 20, humidity := 50, wind_speed := 3
    weather_main := "Clear", pressure := 1012, feels_like := 19
    lat := 51, lon := 0 }

/-- A reading with the given city and temperature, other fields fixed. -/
def readingAt (city : String) (t : ℚ) : Reading :=
  { city := city, timestamp := 0, temperature := t, humidity := 50
    wind_speed := 3, weather_condition := "Clear", pressure := 1012
    feels_like := t, latitude := 0, longitude := 0 }

/-- An API oracle where every city fetch succeeds. -/
def apiAllOk : String → Except FetchError ApiData := fun _ => .ok sampleApiData

/-- An API oracle where London times out and every other city succeeds. -/
def apiLondonFails : String → Except FetchError ApiData := fun c =>
  if c = "London" then .error .timeout else .ok sampleApiData

/-- Environment with alerting enabled and thresholds 35 (heat) and 0 (cold). -/
def envC5 : EnvVars :=
  { ENABLE_ALERTS := some "true", HEAT_WAVE_THRESHOLD := some "35",
    COLD_WAVE_THRESHOLD := some "0" }

/-- Cycle environment where every fetch succeeds and the persist step raises. -/
def pipelinePersistFail : PipelineEnv :=
  ⟨apiAllOk, .error .ioError, .ok (), {}, fun _ => .ok ()⟩

/-- Cycle environment where every per-location fetch fails. -/
def pipelineAllFetchFail : PipelineEnv :=
  ⟨fun _ => .error .timeout, .ok (), .ok (), {}, fun _ => .ok ()⟩

/-- Cycle environment where only the training-corpus write raises: alerting
is enabled and both thresholds are set (so `reload_env` succeeds). -/
def pipelineTrainingFail : PipelineEnv :=
  ⟨apiAllOk, .ok (), .error .ioError, envC5, fun _ => .ok ()⟩

/-- Settings with no sender, credential or recipient configured. -/
def settingsUnset : Settings :=
  ⟨"smtp.gmail.com", 587, none, none, none, 35, 0⟩

deriving instance DecidableEq for Except

/-! Claim theorems. -/

/-- C1: appending a non-empty batch `B` to an existing historical dataset `H`
yields a dataset of length `length H + length B` whose first `length H`
records are exactly `H` in order, followed by exactly `B`; with no existing
dataset, `B` becomes the initial dataset. -/
theorem historical_append_lossless (H B : List Reading) (_hB : B ≠ []) :
    (save_data_historical (some H) B).length = H.length + B.length ∧
    (save_data_historical (some H) B).take H.length = H ∧
    (save_data_historical (some H) B).drop H.length = B ∧
    save_data_historical none B = B := by
  refine ⟨?_, ?_, ?_, rfl⟩ <;>
    simp [save_data_historical, List.take_left, List.drop_left]

/-- Witness for C1 at a concrete one-record dataset and one-record batch. -/
theorem historical_append_lossless_witness :
    (save_data_historical (some [readingAt "X" 1]) [readingAt "Y" 2]).length
        = [readingAt "X" 1].length + [readingAt "Y" 2].length ∧
    (save_data_historical (some [readingAt "X" 1]) [readingAt "Y" 2]).take
        [readingAt "X" 1].length = [readingAt "X" 1] ∧
    (save_data_historical (some [readingAt "X" 1]) [readingAt "Y" 2]).drop
        [readingAt "X" 1].length = [readingAt "Y" 2] ∧
    save_data_historical none [readingAt "Y" 2] = [readingAt "Y" 2] :=
  historical_append_lossless [readingAt "X" 1] [readingAt "Y" 2] (by decide)

/-- C2: the batch of a fetch cycle is exactly one complete Reading per
successfully fetched location, in the location list's order, omitting every
failed location, and a failure for one location does not abort the rest. -/
theorem fetch_batch_exact (api : String → Except FetchError ApiData)
    (cities : List String) :
    fetch_weather_data api cities
        = cities.filterMap (fun c => (api c).toOption.map (mkReading c)) ∧
    (fetch_weather_data api cities).map Reading.city
        = cities.filter (fun c => (api c).toOption.isSome) ∧
    (∀ c rest e, api c = .error e →
      fetch_weather_data api (c :: rest) = fetch_weather_data api rest) := by
  refine ⟨?_, ?_, ?_⟩
  · induction cities with
    | nil => rfl
    | cons c rest ih =>
        cases h : api c <;>
          simp [fetch_weather_data, h, ih, Except.toOption]
  · induction cities with
    | nil => rfl
    | cons c rest ih =>
        cases h : api c <;>
          simp [fetch_weather_data, h, ih, Except.toOption, mkReading]
  · intro c rest e h
    simp [fetch_weather_data, h]

/-- Witness for C2: a timeout for London removes only London from the batch. -/
theorem fetch_batch_exact_witness :
    fetch_weather_data apiLondonFails ("London" :: ["New York"])
      = fetch_weather_data apiLondonFails ["New York"] :=
  (fetch_batch_exact apiLondonFails ["London", "New York"]).2.2
    "London" ["New York"] .timeout rfl

/-- C8: a malformed non-empty value falls back to the documented default
(35 heat, 0 cold) because the `ValueError` from `float` is caught, and a
numeric value with trailing units text parses to its leading token — but a
missing (unset) variable raises an uncaught `AttributeError` from
`None.strip()`, and an empty or whitespace-only value an uncaught
`IndexError` from `split()[0]`, so threshold resolution crashes on those
inputs instead of falling back. -/
theorem parse_float_fallback_and_uncaught_raises :
    parse_float (some "not a number") 35 = .ok 35 ∧
    parse_float (some "cold") 0 = .ok 0 ∧
    parse_float (some "36.5 C") 35 = .ok (73 / 2) ∧
    parse_float none 35 = .error .attributeError ∧
    parse_float none 0 = .error .attributeError ∧
    parse_float (some "") 35 = .error .indexError ∧
    parse_float (some "   ") 0 = .error .indexError ∧
    reload_env {} = .error .attributeError ∧
    reload_env { HEAT_WAVE_THRESHOLD := some "" } = .error .indexError := by
  refine ⟨by decide, by decide, ?_, rfl, rfl, by decide, by decide, rfl, by decide⟩
  have h : parse_float (some "36.5 C") 35
      = .ok ((digitsToNat ['3', '6'] : ℚ) + (digitsToNat ['5'] : ℚ) / 10 ^ ['5'].length) :=
    rfl
  rw [h, show digitsToNat ['3', '6'] = 36 from by decide,
    show digitsToNat ['5'] = 5 from by decide]
  simp only [Except.ok.injEq, List.length_singleton]
  norm_num

/-- Lemma: a `sleep` event at the head never breaks call adjacency checking. -/
theorem noAdjacentCalls_sleep_cons (t : List FetchEvent) :
    noAdjacentCalls (.sleep :: t) = noAdjacentCalls t := by
  cases t with
  | nil => rfl
  | cons x xs => simp [noAdjacentCalls, FetchEvent.isCall]

/-- Counterexample to C9 as stated: with the configured city list, when the
first location (London) fails, its API call and the next location's API
call are adjacent in the trace — `time.sleep(1)` sits inside the `try`
block after the successful path only, so no delay separates a failed call
from the next call. -/
theorem fetch_delay_counterexample :
    noAdjacentCalls (fetch_trace apiLondonFails CITIES) = false := by decide

/-- C9 (amended): the 1-unit inter-request delay is enforced after every
successful per-location call — in particular between every two consecutive
calls of a cycle in which every location succeeds — but a failed call is
followed immediately by the next call with no delay. -/
theorem fetch_delay_after_success (api : String → Except FetchError ApiData)
    (cities : List String) :
    ((∀ c ∈ cities, (api c).toOption.isSome = true) →
      noAdjacentCalls (fetch_trace api cities) = true) ∧
    (∀ c rest d, api c = .ok d →
      fetch_trace api (c :: rest) = .call c :: .sleep :: fetch_trace api rest) ∧
    (∀ c rest e, api c = .error e →
      fetch_trace api (c :: rest) = .call c :: fetch_trace api rest) := by
  refine ⟨?_, ?_, ?_⟩
  · induction cities with
    | nil => intro _; rfl
    | cons c rest ih =>
        intro h
        have hc := h c (List.mem_cons_self c rest)
        cases hd : api c with
        | error e => rw [hd] at hc; simp [Except.toOption] at hc
        | ok d =>
            have hrest := ih fun x hx => h x (List.mem_cons_of_mem c hx)
            simp [fetch_trace, hd, noAdjacentCalls, FetchEvent.isCall,
              noAdjacentCalls_sleep_cons, hrest]
  · intro c rest d h
    simp [fetch_trace, h]
  · intro c rest e h
    simp [fetch_trace, h]

/-- Witness for C9 (amended): with every location succeeding, the delay
separates all consecutive calls of the configured city list. -/
theorem fetch_delay_after_success_witness :
    noAdjacentCalls (fetch_trace apiAllOk CITIES) = true :=
  (fetch_delay_after_success apiAllOk CITIES).1 (by decide)

/-- Lemma: a batch with no reading beyond either threshold produces no
alert events. -/
theorem alertsFor_nil (s : Settings) (b : List Reading)
    (h : ∀ r ∈ b, ¬ s.HEAT_THRESHOLD < r.temperature ∧
      ¬ r.temperature < s.COLD_THRESHOLD) :
    alertsFor s b = [] := by
  have h1 : b.filter (fun r => decide (r.temperature > s.HEAT_THRESHOLD)) = [] := by
    rw [List.filter_eq_nil_iff]
    intro r hr
    simpa using (h r hr).1
  have h2 : b.filter (fun r => decide (r.temperature < s.COLD_THRESHOLD)) = [] := by
    rw [List.filter_eq_nil_iff]
    intro r hr
    simpa using (h r hr).2
  simp [alertsFor, h1, h2]

/-- Lemma: `check_alerts` returns normally whenever `reload_env` does; its
only raise path is the settings reload. -/
theorem check_alerts_ok_of_reload (e : EnvVars)
    (smtp : ℕ → Except SmtpError Unit) (b : List Reading) (st : Settings)
    (h : reload_env e = .ok st) :
    ∃ v, check_alerts e smtp b = .ok v := by
  cases hen : alertsEnabled e with
  | false => exact ⟨([], [], false), by simp [check_alerts, hen]⟩
  | true =>
      exact ⟨(alertsFor st b,
        (List.range (alertsFor st b).length).map fun i =>
          (send_email_alert st (smtp i)).1,
        decide ((alertsFor st b).length > 0)),
        by simp [check_alerts, hen, h]⟩

/-- C5: with heat threshold 35, cold threshold 0 and alerting enabled, the
batch with temperatures A:36, B:20, C:-1 yields exactly a heat event
listing [A] and a cold event listing [C]; and any batch whose temperatures
all lie in [0, 35] yields zero events. -/
theorem alert_thresholds_example (smtp : ℕ → Except SmtpError Unit) :
    check_alerts envC5 smtp
        [readingAt "A" 36, readingAt "B" 20, readingAt "C" (-1)]
      = .ok ([⟨.heat, ["A"]⟩, ⟨.cold, ["C"]⟩],
             [.notConfigured, .notConfigured], true) ∧
    ∀ b : List Reading, (∀ r ∈ b, 0 ≤ r.temperature ∧ r.temperature ≤ 35) →
      check_alerts envC5 smtp b = .ok ([], [], false) := by
  constructor
  · rfl
  · intro b hb
    have hre : reload_env envC5
        = .ok ⟨"smtp.gmail.com", 587, none, none, none, 35, 0⟩ := by decide
    have hen : alertsEnabled envC5 = true := by decide
    have hnil : alertsFor ⟨"smtp.gmail.com", 587, none, none, none, 35, 0⟩ b = [] := by
      refine alertsFor_nil _ b fun r hr => ⟨?_, ?_⟩
      · exact not_lt.mpr (hb r hr).2
      · exact not_lt.mpr (hb r hr).1
    simp [check_alerts, hen, hre, hnil]

/-- Witness for C5 at a concrete in-range batch. -/
theorem alert_thresholds_example_witness :
    check_alerts envC5 (fun _ => .ok ()) [readingAt "B" 20]
      = .ok ([], [], false) :=
  (alert_thresholds_example (fun _ => .ok ())).2 [readingAt "B" 20] (by decide)

/-- C6: the alert evaluator is pure given (Batch, Settings): two invocations
whose environments agree on every Settings-relevant variable produce
identical alert events and the same boolean result, whatever the SMTP
transport does; and with alerting disabled it produces zero events
regardless of the thresholds. -/
theorem check_alerts_pure (e1 e2 : EnvVars)
    (smtp1 smtp2 : ℕ → Except SmtpError Unit) (b : List Reading)
    (hEn : e1.ENABLE_ALERTS = e2.ENABLE_ALERTS)
    (hSrv : e1.SMTP_SERVER = e2.SMTP_SERVER)
    (hPort : e1.SMTP_PORT = e2.SMTP_PORT)
    (hSend : e1.ALERT_EMAIL_SENDER = e2.ALERT_EMAIL_SENDER)
    (hPass : e1.ALERT_EMAIL_PASSWORD = e2.ALERT_EMAIL_PASSWORD)
    (hRec : e1.ALERT_EMAIL_RECIPIENT = e2.ALERT_EMAIL_RECIPIENT)
    (hHeat : e1.HEAT_WAVE_THRESHOLD = e2.HEAT_WAVE_THRESHOLD)
    (hCold : e1.COLD_WAVE_THRESHOLD = e2.COLD_WAVE_THRESHOLD) :
    (check_alerts e1 smtp1 b).map (fun r => (r.1, r.2.2))
      = (check_alerts e2 smtp2 b).map (fun r => (r.1, r.2.2)) ∧
    (alertsEnabled e1 = false → check_alerts e1 smtp1 b = .ok ([], [], false)) := by
  have hre : reload_env e1 = reload_env e2 := by
    unfold reload_env
    rw [hPort, hHeat, hCold, hSrv, hSend, hPass, hRec]
  have hen : alertsEnabled e1 = alertsEnabled e2 := by
    unfold alertsEnabled
    rw [hEn]
  constructor
  · unfold check_alerts
    rw [hen, hre]
    cases alertsEnabled e2 with
    | false => rfl
    | true =>
        cases reload_env e2 with
        | error err => rfl
        | ok st => simp [Except.map]
  · intro h
    simp [check_alerts, h]

/-- Witness for C6: the same environment with two different transports
yields the same events and boolean result. -/
theorem check_alerts_pure_witness :
    (check_alerts envC5 (fun _ => .ok ()) [readingAt "A" 36]).map
        (fun r => (r.1, r.2.2))
      = (check_alerts envC5 (fun _ => .error .transportFailure)
          [readingAt "A" 36]).map (fun r => (r.1, r.2.2)) :=
  (check_alerts_pure envC5 envC5 (fun _ => .ok ())
    (fun _ => .error .transportFailure) [readingAt "A" 36]
    rfl rfl rfl rfl rfl rfl rfl rfl).1

/-- C7: with sender, credential or recipient unset the notifier skips
delivery with a "not configured" outcome and zero network connections;
otherwise an SMTP transport failure is caught and reported, never
re-raised; and alert delivery never makes `check_alerts` raise — its only
raise path is the settings reload. -/
theorem notifier_best_effort (s : Settings) (e : EnvVars)
    (smtp : ℕ → Except SmtpError Unit) (b : List Reading) :
    ((pyFalsy s.EMAIL_SENDER || pyFalsy s.EMAIL_PASSWORD ||
        pyFalsy s.EMAIL_RECIPIENT) = true →
      ∀ tr, send_email_alert s tr = (.notConfigured, 0)) ∧
    ((pyFalsy s.EMAIL_SENDER || pyFalsy s.EMAIL_PASSWORD ||
        pyFalsy s.EMAIL_RECIPIENT) = false →
      ∀ err, send_email_alert s (.error err) = (.failedCaught, 1)) ∧
    (∀ st, reload_env e = .ok st → ∃ v, check_alerts e smtp b = .ok v) := by
  refine ⟨?_, ?_, ?_⟩
  · intro h tr
    simp [send_email_alert, h]
  · intro h err
    simp [send_email_alert, h]
  · intro st h
    exact check_alerts_ok_of_reload e smtp b st h

/-- Witness for C7: every credential unset gives the not-configured outcome
with no network connection. -/
theorem notifier_best_effort_witness :
    send_email_alert settingsUnset (.ok ()) = (.notConfigured, 0) :=
  (notifier_best_effort settingsUnset {} (fun _ => .ok ()) []).1 rfl (.ok ())

/-- C3: an I/O error raised while persisting fails only the current cycle:
the training append and alert evaluation of that cycle are skipped, the
error is absorbed by the cycle runner (which returns a failed result rather
than re-raising), the scheduler's phase sequence still ends in Idle, and
the next tick still executes its cycle. -/
theorem persist_error_isolated (P : PipelineEnv) (err : PyError)
    (hbatch : fetch_weather_data P.api CITIES ≠ [])
    (hio : P.persistIO = .error err) :
    run_pipeline P = ⟨.failed, false, [.fetch, .persist]⟩ ∧
    Step.training ∉ (run_pipeline P).steps ∧
    Step.alerts ∉ (run_pipeline P).steps ∧
    cyclePhases P = [.Running, .Failed, .Idle] ∧
    ∀ envs : ℕ → PipelineEnv, envs 0 = P →
      mainCycles envs 2 = [run_pipeline P, run_pipeline (envs 1)] := by
  obtain ⟨x, xs, hx⟩ := List.exists_cons_of_ne_nil hbatch
  have h1 : run_pipeline P = ⟨.failed, false, [.fetch, .persist]⟩ := by
    simp [run_pipeline, run_pipeline_try, hx, hio]
  refine ⟨h1, ?_, ?_, ?_, ?_⟩
  · rw [h1]; decide
  · rw [h1]; decide
  · simp [cyclePhases, h1]
  · intro envs henv
    have hr : List.range 2 = [0, 1] := rfl
    simp [mainCycles, hr, henv]

/-- Witness for C3: every fetch succeeds, the persist step raises an I/O
error, and the cycle resolves to a failed result after fetch and persist. -/
theorem persist_error_isolated_witness :
    run_pipeline pipelinePersistFail = ⟨.failed, false, [.fetch, .persist]⟩ :=
  (persist_error_isolated pipelinePersistFail .ioError (by decide) rfl).1

/-- C4: an empty batch is a valid, non-raising outcome: the cycle runner
returns the no-data result (the body completes without an exception), and
a cycle resolves to the failed outcome only when the persist step or the
alert-evaluation step raised — never from fetch failures alone. -/
theorem empty_batch_valid (P : PipelineEnv)
    (hempty : fetch_weather_data P.api CITIES = []) :
    run_pipeline P = ⟨.noData, false, [.fetch]⟩ ∧
    run_pipeline_try P = .ok (false, [.fetch]) ∧
    ∀ Q : PipelineEnv, (run_pipeline Q).outcome = .failed →
      (∃ e, Q.persistIO = .error e) ∨
      (∃ e, check_alerts Q.env Q.smtp (fetch_weather_data Q.api CITIES)
        = .error e) := by
  have htry : run_pipeline_try P = .ok (false, [.fetch]) := by
    simp [run_pipeline_try, hempty]
  refine ⟨by simp [run_pipeline, htry], htry, ?_⟩
  intro Q hq
  by_cases hb : fetch_weather_data Q.api CITIES = []
  · exfalso
    have : run_pipeline Q = ⟨.noData, false, [.fetch]⟩ := by
      simp [run_pipeline, run_pipeline_try, hb]
    rw [this] at hq
    exact absurd hq (by decide)
  · obtain ⟨x, xs, hx⟩ := List.exists_cons_of_ne_nil hb
    cases hp : Q.persistIO with
    | error e => exact .inl ⟨e, rfl⟩
    | ok u =>
        cases u
        right
        cases hen : alertsEnabled Q.env with
        | false =>
            exfalso
            have : run_pipeline Q = ⟨.completed, true, [.fetch, .persist, .training]⟩ := by
              simp [run_pipeline, run_pipeline_try, hx, hp, hen]
            rw [this] at hq
            exact absurd hq (by decide)
        | true =>
            cases hc : check_alerts Q.env Q.smtp (fetch_weather_data Q.api CITIES) with
            | error e => exact ⟨e, rfl⟩
            | ok v =>
                exfalso
                have hc2 : check_alerts Q.env Q.smtp (x :: xs) = .ok v := hx ▸ hc
                have : run_pipeline Q
                    = ⟨.completed, true, [.fetch, .persist, .training, .alerts]⟩ := by
                  simp [run_pipeline, run_pipeline_try, hx, hp, hen, hc2]
                rw [this] at hq
                exact absurd hq (by decide)

/-- Witness for C4: with every location failing, the cycle returns the
no-data result without raising. -/
theorem empty_batch_valid_witness :
    run_pipeline pipelineAllFetchFail = ⟨.noData, false, [.fetch]⟩ :=
  (empty_batch_valid pipelineAllFetchFail (by decide)).1

/-- C10: an I/O error during the training-corpus append is caught inside
`save_training_data`, which returns false; the cycle still reaches alert
evaluation, is reported as a success, and the next scheduled tick still
executes its cycle. -/
theorem training_failure_nonfatal (P : PipelineEnv) (err : PyError)
    (st : Settings)
    (hbatch : fetch_weather_data P.api CITIES ≠ [])
    (hpersist : P.persistIO = .ok ())
    (htrain : P.trainingIO = .error err)
    (hen : alertsEnabled P.env = true)
    (hreload : reload_env P.env = .ok st) :
    (save_training_data P.trainingIO (fetch_weather_data P.api CITIES)).1
        = false ∧
    run_pipeline P = ⟨.completed, true, [.fetch, .persist, .training, .alerts]⟩ ∧
    ∀ envs : ℕ → PipelineEnv, envs 0 = P →
      mainCycles envs 2 = [run_pipeline P, run_pipeline (envs 1)] := by
  obtain ⟨x, xs, hx⟩ := List.exists_cons_of_ne_nil hbatch
  obtain ⟨v, hc⟩ := check_alerts_ok_of_reload P.env P.smtp (x :: xs) st hreload
  refine ⟨by simp [save_training_data, htrain], ?_, ?_⟩
  · simp [run_pipeline, run_pipeline_try, hx, hpersist, hen, hc]
  · intro envs henv
    have hr : List.range 2 = [0, 1] := rfl
    simp [mainCycles, hr, henv]

/-- Witness for C10: only the training write raises; the cycle completes
with all four steps executed. -/
theorem training_failure_nonfatal_witness :
    run_pipeline pipelineTrainingFail
      = ⟨.completed, true, [.fetch, .persist, .training, .alerts]⟩ :=
  (training_failure_nonfatal pipelineTrainingFail .ioError
    ⟨"smtp.gmail.com", 587, none, none, none, 35, 0⟩
    (by decide) rfl rfl (by decide) (by decide)).2.1
